import Mathlib

/-!
Shallow embedding of the movie search backend (`Backend/server.js`):
the search-aggregation-and-caching pipeline (`GET /api/search`), the
popular-curation pipeline (`GET /api/popular`), and the movie-detail
routes (`GET /api/movie/:id` and the later-registered
`GET /api/movie/:imdbID`).

The external OMDB provider is modelled as an oracle (`ProviderEnv`):
`searchP` embeds `makeOMDBRequest` on a search URL and `detailP` on a
detail URL; `Except.error` models the `throw new Error(...)` of
`makeOMDBRequest` on transport failure/timeout/non-2xx.  The NodeCache
instance (`stdTTL: 3600`) is modelled as an association list of entries
with absolute expiry timestamps; expiry is evaluated at read time.
MongoDB search-history persistence is modelled as a list of records plus
a boolean oracle `histFails` standing for `SearchHistory.create`
throwing (the code catches and logs that error).
-/

/-- A raw provider search hit (`data.Search` element): `imdbID`, `Title`,
`Year`, `Type`, `Poster`.  The source field `Type` is a Lean keyword and
is rendered `mediaType` here. -/
structure Movie where
  imdbID : String
  Title : String
  Year : String
  mediaType : String
  Poster : String
deriving DecidableEq, Repr

/-- A raw provider detail payload (the fields the handlers read).
`Response` is `true` iff the JSON field `Response` equals `'True'`;
`Option` models fields that may be `undefined` in the payload. -/
structure DetailPayload where
  Response : Bool
  Plot : Option String
  Director : Option String
  Actors : Option String
  Genre : Option String
  Runtime : Option String
  imdbRating : Option String
  Awards : Option String
  Error : Option String
deriving DecidableEq, Repr

/-- Outcome of a provider search call with `Response === 'True'`
(`matched` carries `data.Search` and `parseInt(data.totalResults)`) or
with any other `Response` (`noMatch` carries the optional `data.Error`). -/
inductive SearchData where
  | matched (hits : List Movie) (total : Nat)
  | noMatch (err : Option String)
deriving DecidableEq, Repr

/-- The provider oracle: deterministic within one TTL window.
`Except.error cause` models `makeOMDBRequest` throwing. -/
structure ProviderEnv where
  searchP : String → Int → Except String SearchData
  detailP : String → Except String DetailPayload

/-- A search hit after the enrichment fan-out: summary fields plus
optional enrichment fields (absent when the detail call failed). -/
structure EnrichedMovie where
  imdbID : String
  Title : String
  Year : String
  mediaType : String
  Poster : String
  Plot : Option String
  Director : Option String
  Actors : Option String
  Genre : Option String
  Runtime : Option String
  imdbRating : Option String
  Awards : Option String
deriving DecidableEq, Repr

/-- The summary part of an enriched movie (its `MovieSummary` fields). -/
def EnrichedMovie.summary (e : EnrichedMovie) : Movie :=
  ⟨e.imdbID, e.Title, e.Year, e.mediaType, e.Poster⟩

/-- All seven enrichment fields are absent. -/
def EnrichedMovie.unenriched (e : EnrichedMovie) : Prop :=
  e.Plot = none ∧ e.Director = none ∧ e.Actors = none ∧ e.Genre = none ∧
  e.Runtime = none ∧ e.imdbRating = none ∧ e.Awards = none

instance (e : EnrichedMovie) : Decidable e.unenriched := by
  unfold EnrichedMovie.unenriched; infer_instance

/-- One enrichment call (`server.js` lines 263–279): fetch the detail
record for `m.imdbID` and merge the seven enrichment fields in; on a
thrown detail request the basic hit is returned unchanged
(`return movie`), i.e. every enrichment field is absent. -/
def enrich (detailP : String → Except String DetailPayload) (m : Movie) :
    EnrichedMovie :=
  match detailP m.imdbID with
  | .ok d =>
      ⟨m.imdbID, m.Title, m.Year, m.mediaType, m.Poster,
       d.Plot, d.Director, d.Actors, d.Genre, d.Runtime, d.imdbRating, d.Awards⟩
  | .error _ =>
      ⟨m.imdbID, m.Title, m.Year, m.mediaType, m.Poster,
       none, none, none, none, none, none, none⟩

/-- One cache entry with its absolute expiry instant
(store time + TTL). -/
structure CacheEntry (α : Type) where
  key : String
  value : α
  expiresAt : Nat
deriving DecidableEq, Repr

/-- The NodeCache store, newest entry first. -/
abbrev Cache (α : Type) : Type := List (CacheEntry α)

/-- `cache.get(k)` at instant `now`: an expired entry behaves as a miss. -/
def cacheGet {α : Type} (c : Cache α) (now : Nat) (k : String) : Option α :=
  match c.find? (fun e => e.key == k) with
  | some e => if now < e.expiresAt then some e.value else none
  | none => none

/-- `cache.set(k, v)` at instant `now` with time-to-live `ttl`:
replaces any previous entry for `k`. -/
def cacheSet {α : Type} (c : Cache α) (now : Nat) (k : String) (v : α)
    (ttl : Nat) : Cache α :=
  ⟨k, v, now + ttl⟩ :: c.filter (fun e => e.key != k)

/-- `searchSchema.validate` (`server.js` lines 215–218): `query` is a
required string of length 1..100; `page` is an integer in 1..100
defaulting to 1.  Returns Joi's first error message on failure. -/
def validateSearch (q : Option String) (p : Option Int) :
    Except String (String × Int) :=
  match q with
  | none => .error "\"query\" is required"
  | some q =>
      if q.length = 0 then .error "\"query\" is not allowed to be empty"
      else if 100 < q.length then
        .error "\"query\" length must be less than or equal to 100 characters long"
      else
        match p with
        | none => .ok (q, 1)
        | some p =>
            if p < 1 then .error "\"page\" must be greater than or equal to 1"
            else if 100 < p then
              .error "\"page\" must be less than or equal to 100"
            else .ok (q, p)

/-- The cache key `` `search:${query}:${page}` ``. -/
def searchKey (q : String) (p : Int) : String := s!"search:{q}:{p}"

/-- `Math.ceil(totalResults / 10)` on a natural count. -/
def totalPagesOf (total : Nat) : Nat := (total + 9) / 10

/-- A search-history record: `{query, results, userIP}`. -/
structure HistoryRecord where
  query : String
  results : Nat
  userIP : String
deriving DecidableEq, Repr

/-- The JSON envelope written by the search route: either
`{success:true, data:{movies, totalResults, currentPage, totalPages}}`
or `{success:false, error}`. -/
inductive SearchResponse where
  | success (movies : List EnrichedMovie) (totalResults : Nat)
      (currentPage : Int) (totalPages : Nat)
  | failure (error : String)
deriving DecidableEq, Repr

/-- Observable outcome of one `GET /api/search` request: HTTP status,
response body, cache state after, search-history table after, and the
number of provider search calls, provider detail calls and cache reads
performed. -/
structure SearchOutcome where
  status : Nat
  body : SearchResponse
  cache : Cache SearchResponse
  db : List HistoryRecord
  searchCalls : Nat
  detailCalls : Nat
  cacheReads : Nat
deriving Repr

/-- The `GET /api/search` handler (`server.js` lines 237–323).
`isMongoConnected` and `histFails` model the database connection flag
and `SearchHistory.create` throwing (that error is caught and logged,
so it only determines whether the record lands in the table). -/
def handleSearch (env : ProviderEnv) (isMongoConnected : Bool)
    (histFails : Bool) (ip : String) (cache : Cache SearchResponse)
    (db : List HistoryRecord) (now : Nat)
    (qRaw : Option String) (pRaw : Option Int) : SearchOutcome :=
  match validateSearch qRaw pRaw with
  | .error msg => ⟨400, .failure msg, cache, db, 0, 0, 0⟩
  | .ok (query, page) =>
      match cacheGet cache now (searchKey query page) with
      | some r => ⟨200, r, cache, db, 0, 0, 1⟩
      | none =>
          match env.searchP query page with
          | .error _ =>
              ⟨500, .failure "Internal server error", cache, db, 1, 0, 1⟩
          | .ok (.noMatch err) =>
              let resp := SearchResponse.failure (err.getD "No movies found")
              ⟨200, resp,
               cacheSet cache now (searchKey query page) resp 3600,
               db, 1, 0, 1⟩
          | .ok (.matched hits total) =>
              let movies := hits.map (enrich env.detailP)
              let resp := SearchResponse.success movies total page
                (totalPagesOf total)
              ⟨200, resp,
               cacheSet cache now (searchKey query page) resp 3600,
               (if isMongoConnected && !histFails then
                  db ++ [⟨query, total, ip⟩] else db),
               1, hits.length, 1⟩

/-- The fixed seed queries of `GET /api/popular` (`server.js` line 336). -/
def trendingSearches : List String :=
  ["Marvel", "Batman", "Spider-Man", "Star Wars", "Fast",
   "Mission Impossible", "John Wick", "Transformers"]

/-- The movies one seed contributes to `popularMovies` (`server.js`
lines 339–369): on a matched search, the first 3 hits each enriched with
the same per-hit graceful degradation as the search route; a thrown
search call or a no-match response contributes nothing (the outer
per-seed `catch` logs and continues). -/
def seedHits (env : ProviderEnv) (seed : String) : List EnrichedMovie :=
  match env.searchP seed 1 with
  | .error _ => []
  | .ok (.noMatch _) => []
  | .ok (.matched hits _) => (hits.take 3).map (enrich env.detailP)

/-- The accumulated `popularMovies` array, in seed order. -/
def curateAccum (env : ProviderEnv) : List EnrichedMovie :=
  trendingSearches.foldl (fun acc seed => acc ++ seedHits env seed) []

/-- The dedup step (`server.js` lines 372–374), as written:
`popularMovies.filter((movie, index, self) => index === self.findIndex(m
=> m.imdbID === movie.imdbID))`. -/
def dedupByID (l : List EnrichedMovie) : List EnrichedMovie :=
  (l.enum.filter
    (fun p => l.findIdx? (fun m2 => m2.imdbID == p.2.imdbID) == some p.1)).map
    Prod.snd

/-- The curated popular list: accumulate, dedup by id keeping the first
occurrence, then `.slice(0, 25)`. -/
def curate (env : ProviderEnv) : List EnrichedMovie :=
  (dedupByID (curateAccum env)).take 25

/-- The JSON envelope written by the movie-detail routes: the first
route answers `{success:true, data}` or `{success:false, error}`; the
second (shadowed) route answers `{success:true, movie}` on a find. -/
inductive MovieResponse where
  | success (data : DetailPayload)
  | successMovie (movie : DetailPayload)
  | failure (error : String)
deriving DecidableEq, Repr

/-- The cache key `` `movie:${id}` ``. -/
def movieKey (id : String) : String := s!"movie:{id}"

/-- Observable outcome of one `GET /api/movie/...` request. -/
structure MovieOutcome where
  status : Nat
  body : MovieResponse
  cache : Cache MovieResponse
deriving Repr

/-- The first-registered `GET /api/movie/:id` handler (`server.js`
lines 396–432): cache lookup under `movie:{id}`, then a provider detail
call; both the found and the not-found envelope are cached for the full
TTL and answered with HTTP 200; a thrown provider call yields 500 and
stores nothing. -/
def handleMovieDetail (env : ProviderEnv) (cache : Cache MovieResponse)
    (now : Nat) (id : String) : MovieOutcome :=
  match cacheGet cache now (movieKey id) with
  | some r => ⟨200, r, cache⟩
  | none =>
      match env.detailP id with
      | .error _ => ⟨500, .failure "Failed to fetch movie details", cache⟩
      | .ok d =>
          let resp := if d.Response then MovieResponse.success d
            else MovieResponse.failure (d.Error.getD "Movie not found")
          ⟨200, resp, cacheSet cache now (movieKey id) resp 3600⟩

/-- The later-registered `GET /api/movie/:imdbID` handler (`server.js`
lines 435–451): no cache, HTTP 404 on a not-found id. -/
def handleMovieByImdbID (env : ProviderEnv) (cache : Cache MovieResponse)
    (_now : Nat) (id : String) : MovieOutcome :=
  if id = "" then ⟨400, .failure "imdbID is required.", cache⟩
  else
    match env.detailP id with
    | .error _ => ⟨500, .failure "Failed to fetch movie.", cache⟩
    | .ok d =>
        if d.Response then ⟨200, .successMovie d, cache⟩
        else ⟨404, .failure (d.Error.getD "Movie not found."), cache⟩

/-- The Express routing table for `GET /api/movie/...`: each route is a
segment-match predicate (a `:param` pattern matches every captured
segment) paired with its handler, in registration order. -/
def movieRouteTable :
    List ((String → Bool) × (ProviderEnv → Cache MovieResponse → Nat →
      String → MovieOutcome)) :=
  [(fun _ => true, handleMovieDetail),
   (fun _ => true, handleMovieByImdbID)]

/-- Express dispatch for `GET /api/movie/{id}`: the first route whose
pattern matches the captured segment handles the request; with no match
the 404 fallback (`server.js` lines 511–516) answers. -/
def dispatchMovie (env : ProviderEnv) (cache : Cache MovieResponse)
    (now : Nat) (id : String) : MovieOutcome :=
  match movieRouteTable.find? (fun r => r.1 id) with
  | some r => r.2 env cache now id
  | none => ⟨404, .failure "Endpoint not found", cache⟩

/-! ## Helper lemmas -/

theorem cacheGet_cacheSet_same {α : Type} (c : Cache α) (now t : Nat)
    (k : String) (v : α) (ttl : Nat) (h : t < now + ttl) :
    cacheGet (cacheSet c now k v ttl) t k = some v := by
  simp [cacheGet, cacheSet, List.find?_cons_of_pos, h]

theorem enrich_imdbID (dp : String → Except String DetailPayload)
    (m : Movie) : (enrich dp m).imdbID = m.imdbID := by
  unfold enrich; cases dp m.imdbID <;> rfl

/-! ## Claim theorems -/

/-- C1: for a fixed valid query/page, a first (cache-missing,
non-throwing) `search` call stores the final assembled response under
`search:{query}:{page}`, and a second call with the same query and page
within one TTL window returns that stored value unchanged — a
byte-identical body — without any provider search or detail call and
without changing the cache. -/
theorem search_cache_idempotent
    (env : ProviderEnv) (mongo hf₁ hf₂ : Bool) (ip₁ ip₂ : String)
    (cache : Cache SearchResponse) (db₁ db₂ : List HistoryRecord)
    (t₁ t₂ : Nat) (qRaw : Option String) (pRaw : Option Int)
    (q : String) (p : Int) (sd : SearchData)
    (hv : validateSearch qRaw pRaw = .ok (q, p))
    (hmiss : cacheGet cache t₁ (searchKey q p) = none)
    (hok : env.searchP q p = .ok sd)
    (ht : t₂ < t₁ + 3600) :
    cacheGet (handleSearch env mongo hf₁ ip₁ cache db₁ t₁ qRaw pRaw).cache t₂
        (searchKey q p)
      = some (handleSearch env mongo hf₁ ip₁ cache db₁ t₁ qRaw pRaw).body ∧
    (handleSearch env mongo hf₂ ip₂
        (handleSearch env mongo hf₁ ip₁ cache db₁ t₁ qRaw pRaw).cache
        db₂ t₂ qRaw pRaw).body
      = (handleSearch env mongo hf₁ ip₁ cache db₁ t₁ qRaw pRaw).body ∧
    (handleSearch env mongo hf₂ ip₂
        (handleSearch env mongo hf₁ ip₁ cache db₁ t₁ qRaw pRaw).cache
        db₂ t₂ qRaw pRaw).searchCalls = 0 ∧
    (handleSearch env mongo hf₂ ip₂
        (handleSearch env mongo hf₁ ip₁ cache db₁ t₁ qRaw pRaw).cache
        db₂ t₂ qRaw pRaw).detailCalls = 0 ∧
    (handleSearch env mongo hf₂ ip₂
        (handleSearch env mongo hf₁ ip₁ cache db₁ t₁ qRaw pRaw).cache
        db₂ t₂ qRaw pRaw).cache
      = (handleSearch env mongo hf₁ ip₁ cache db₁ t₁ qRaw pRaw).cache := by
  cases sd with
  | matched hits total =>
      simp [handleSearch, hv, hmiss, hok, cacheGet_cacheSet_same, ht]
  | noMatch err =>
      simp [handleSearch, hv, hmiss, hok, cacheGet_cacheSet_same, ht]

/-- A concrete provider search hit used to instantiate the theorems. -/
def sampleMovie : Movie := ⟨"tt0096895", "Batman", "1989", "movie", "N/A"⟩

/-- A second concrete hit whose detail call will be made to fail. -/
def sampleMovie2 : Movie := ⟨"tt0103776", "Batman Returns", "1992", "movie", "N/A"⟩

/-- A concrete provider detail payload. -/
def sampleDetail : DetailPayload :=
  ⟨true, some "The Dark Knight of Gotham City.", some "Tim Burton",
   some "Michael Keaton", some "Action", some "126 min", some "7.5",
   some "Won 1 Oscar", none⟩

/-- A concrete provider: every search matches two hits with 95 total
results; the detail call fails for `sampleMovie2` and succeeds
otherwise. -/
def sampleEnv : ProviderEnv :=
  ⟨fun _ _ => .ok (.matched [sampleMovie, sampleMovie2] 95),
   fun id => if id == sampleMovie2.imdbID then .error "timeout"
     else .ok sampleDetail⟩

theorem search_cache_idempotent_witness :
    cacheGet (handleSearch sampleEnv true false "ip" [] [] 0
        (some "batman") (some 1)).cache 10 (searchKey "batman" 1)
      = some (handleSearch sampleEnv true false "ip" [] [] 0
        (some "batman") (some 1)).body ∧
    (handleSearch sampleEnv true false "ip"
        (handleSearch sampleEnv true false "ip" [] [] 0
          (some "batman") (some 1)).cache [] 10
        (some "batman") (some 1)).body
      = (handleSearch sampleEnv true false "ip" [] [] 0
        (some "batman") (some 1)).body ∧
    (handleSearch sampleEnv true false "ip"
        (handleSearch sampleEnv true false "ip" [] [] 0
          (some "batman") (some 1)).cache [] 10
        (some "batman") (some 1)).searchCalls = 0 ∧
    (handleSearch sampleEnv true false "ip"
        (handleSearch sampleEnv true false "ip" [] [] 0
          (some "batman") (some 1)).cache [] 10
        (some "batman") (some 1)).detailCalls = 0 ∧
    (handleSearch sampleEnv true false "ip"
        (handleSearch sampleEnv true false "ip" [] [] 0
          (some "batman") (some 1)).cache [] 10
        (some "batman") (some 1)).cache
      = (handleSearch sampleEnv true false "ip" [] [] 0
        (some "batman") (some 1)).cache :=
  search_cache_idempotent sampleEnv true false false "ip" "ip" [] [] []
    0 10 (some "batman") (some 1) "batman" 1
    (.matched [sampleMovie, sampleMovie2] 95)
    rfl rfl rfl (by decide)

/-- C2: on a matched page, if the detail call for the `i`-th hit fails,
the batch in the response still has an entry at position `i` whose
summary fields equal the raw hit and whose seven enrichment fields are
all absent; the batch size equals the number of provider hits, and the
caller still receives the HTTP 200 success envelope. -/
theorem search_enrichment_graceful
    (env : ProviderEnv) (mongo hf : Bool) (ip : String)
    (cache : Cache SearchResponse) (db : List HistoryRecord) (now : Nat)
    (qRaw : Option String) (pRaw : Option Int)
    (q : String) (p : Int) (hits : List Movie) (total : Nat)
    (i : Nat) (cause : String)
    (hv : validateSearch qRaw pRaw = .ok (q, p))
    (hmiss : cacheGet cache now (searchKey q p) = none)
    (hok : env.searchP q p = .ok (.matched hits total))
    (hi : i < hits.length)
    (hfail : env.detailP (hits.get ⟨i, hi⟩).imdbID = .error cause) :
    (handleSearch env mongo hf ip cache db now qRaw pRaw).status = 200 ∧
    (handleSearch env mongo hf ip cache db now qRaw pRaw).body
      = .success (hits.map (enrich env.detailP)) total p
          (totalPagesOf total) ∧
    (hits.map (enrich env.detailP)).length = hits.length ∧
    ∀ hi2 : i < (hits.map (enrich env.detailP)).length,
      ((hits.map (enrich env.detailP)).get ⟨i, hi2⟩).summary
          = hits.get ⟨i, hi⟩ ∧
      ((hits.map (enrich env.detailP)).get ⟨i, hi2⟩).unenriched := by
  refine ⟨by simp [handleSearch, hv, hmiss, hok],
          by simp [handleSearch, hv, hmiss, hok],
          List.length_map _ _, ?_⟩
  intro hi2
  have hget : (hits.map (enrich env.detailP)).get ⟨i, hi2⟩
      = enrich env.detailP (hits.get ⟨i, hi⟩) := by
    simp [List.getElem_map]
  rw [hget]
  unfold enrich
  rw [hfail]
  exact ⟨rfl, rfl, rfl, rfl, rfl, rfl, rfl, rfl⟩

theorem search_enrichment_graceful_witness :
    (handleSearch sampleEnv true false "ip" [] [] 0
        (some "batman") (some 1)).status = 200 ∧
    (handleSearch sampleEnv true false "ip" [] [] 0
        (some "batman") (some 1)).body
      = .success ([sampleMovie, sampleMovie2].map (enrich sampleEnv.detailP))
          95 1 (totalPagesOf 95) ∧
    ([sampleMovie, sampleMovie2].map (enrich sampleEnv.detailP)).length
      = [sampleMovie, sampleMovie2].length ∧
    ∀ hi2 : 1 < ([sampleMovie, sampleMovie2].map
        (enrich sampleEnv.detailP)).length,
      (([sampleMovie, sampleMovie2].map (enrich sampleEnv.detailP)).get
          ⟨1, hi2⟩).summary = [sampleMovie, sampleMovie2].get ⟨1, by decide⟩ ∧
      (([sampleMovie, sampleMovie2].map (enrich sampleEnv.detailP)).get
          ⟨1, hi2⟩).unenriched :=
  search_enrichment_graceful sampleEnv true false "ip" [] [] 0
    (some "batman") (some 1) "batman" 1 [sampleMovie, sampleMovie2] 95
    1 "timeout" rfl rfl rfl (by decide) rfl

/-- C3: on a matched page the response batch carries exactly one entry
per provider hit, and the ids appear in exactly the provider's order —
for every detail oracle, i.e. independent of how the individual
enrichment calls behave. -/
theorem search_order_preserved
    (env : ProviderEnv) (mongo hf : Bool) (ip : String)
    (cache : Cache SearchResponse) (db : List HistoryRecord) (now : Nat)
    (qRaw : Option String) (pRaw : Option Int)
    (q : String) (p : Int) (hits : List Movie) (total : Nat)
    (hv : validateSearch qRaw pRaw = .ok (q, p))
    (hmiss : cacheGet cache now (searchKey q p) = none)
    (hok : env.searchP q p = .ok (.matched hits total)) :
    (handleSearch env mongo hf ip cache db now qRaw pRaw).body
      = .success (hits.map (enrich env.detailP)) total p
          (totalPagesOf total) ∧
    (hits.map (enrich env.detailP)).map (fun e => e.imdbID)
      = hits.map (fun m => m.imdbID) := by
  refine ⟨by simp [handleSearch, hv, hmiss, hok], ?_⟩
  rw [List.map_map]
  exact List.map_congr_left (fun m _ => enrich_imdbID env.detailP m)

theorem search_order_preserved_witness :
    (handleSearch sampleEnv true false "ip" [] [] 0
        (some "batman") (some 1)).body
      = .success ([sampleMovie, sampleMovie2].map (enrich sampleEnv.detailP))
          95 1 (totalPagesOf 95) ∧
    ([sampleMovie, sampleMovie2].map (enrich sampleEnv.detailP)).map
        (fun e => e.imdbID)
      = [sampleMovie, sampleMovie2].map (fun m => m.imdbID) :=
  search_order_preserved sampleEnv true false "ip" [] [] 0
    (some "batman") (some 1) "batman" 1 [sampleMovie, sampleMovie2] 95
    rfl rfl rfl

theorem dedupByID_ids_nodup (l : List EnrichedMovie) :
    ((dedupByID l).map (fun m => m.imdbID)).Nodup := by
  unfold dedupByID
  rw [List.map_map]
  show (List.map _ _).Pairwise _
  rw [List.pairwise_map]
  have henum : l.enum.Pairwise (fun a b => a.1 < b.1) := by
    have h := List.pairwise_lt_range l.length
    rw [← List.enum_map_fst l, List.pairwise_map] at h
    exact h
  have hfilter := henum.filter
    (fun p => l.findIdx? (fun m2 => m2.imdbID == p.2.imdbID) == some p.1)
  refine hfilter.imp_of_mem ?_
  intro a b ha hb hlt
  have hPa := (List.mem_filter.mp ha).2
  have hPb := (List.mem_filter.mp hb).2
  have ha' : l.findIdx? (fun m2 => m2.imdbID == a.2.imdbID) = some a.1 := by
    simpa using hPa
  have hb' : l.findIdx? (fun m2 => m2.imdbID == b.2.imdbID) = some b.1 := by
    simpa using hPb
  intro hEq
  replace hEq : a.2.imdbID = b.2.imdbID := hEq
  rw [show ((fun m2 : EnrichedMovie => m2.imdbID == a.2.imdbID))
        = (fun m2 : EnrichedMovie => m2.imdbID == b.2.imdbID) from
      funext (fun m2 => by rw [hEq]), hb'] at ha'
  exact absurd (Option.some.inj ha').symm (Nat.ne_of_lt hlt)

theorem curateAccum_eq_join (env : ProviderEnv) :
    curateAccum env = (trendingSearches.map (seedHits env)).flatten := by
  unfold curateAccum
  generalize trendingSearches = seeds
  induction seeds using List.reverseRecOn with
  | nil => rfl
  | append_singleton xs x ih => simp [List.foldl_append, ih]

/-- C4: every curated popular list is exactly the per-seed accumulation
(first 3 hits per seed, in seed order) deduplicated by id keeping the
first occurrence and truncated to the first 25 entries; hence its ids
are pairwise distinct and its length is at most 25.  On the spec's
end-to-end example the dedup step keeps exactly the first occurrence of
each id. -/
theorem curate_dedup_bound :
    (∀ env : ProviderEnv,
      curate env = (dedupByID (curateAccum env)).take 25 ∧
      curateAccum env = (trendingSearches.map (seedHits env)).flatten ∧
      ((curate env).map (fun m => m.imdbID)).Nodup ∧
      (curate env).length ≤ 25) ∧
    (dedupByID
        (["m1", "m2", "m3", "m2", "b2", "b3"].map
          (fun i => ⟨i, "t", "y", "movie", "p",
            none, none, none, none, none, none, none⟩))).map
        (fun m => m.imdbID)
      = ["m1", "m2", "m3", "b2", "b3"] := by
  refine ⟨fun env => ⟨rfl, curateAccum_eq_join env, ?_, ?_⟩, by decide⟩
  · unfold curate
    rw [List.map_take]
    exact (List.take_sublist 25 _).nodup (dedupByID_ids_nodup _)
  · exact (List.length_take_le 25 _)

/-- C5: an empty query, a query longer than 100 characters, and a page
below 1 or above 100 are rejected by the schema; a valid query with a
page in [1,100] is accepted, and an omitted page defaults to 1.  On any
validation error the handler answers 400 with the validation message and
performs no cache read, no provider call, and leaves the cache and the
history table unchanged. -/
theorem search_validation_boundaries :
    (∀ p, ∃ e, validateSearch (some "") p = .error e) ∧
    (∀ q p, 100 < q.length → ∃ e, validateSearch (some q) p = .error e) ∧
    (∀ q p, 1 ≤ q.length → q.length ≤ 100 → (p < 1 ∨ 100 < p) →
      ∃ e, validateSearch (some q) (some p) = .error e) ∧
    (∀ q p, 1 ≤ q.length → q.length ≤ 100 → 1 ≤ p → p ≤ 100 →
      validateSearch (some q) (some p) = .ok (q, p)) ∧
    (∀ q, 1 ≤ q.length → q.length ≤ 100 →
      validateSearch (some q) none = .ok (q, 1)) ∧
    (∀ env mongo hf ip cache db now qRaw pRaw e,
      validateSearch qRaw pRaw = .error e →
      handleSearch env mongo hf ip cache db now qRaw pRaw
        = ⟨400, .failure e, cache, db, 0, 0, 0⟩) := by
  refine ⟨?_, ?_, ?_, ?_, ?_, ?_⟩
  · intro p; exact ⟨_, rfl⟩
  · intro q p h
    refine ⟨"\"query\" length must be less than or equal to 100 characters long", ?_⟩
    simp only [validateSearch]
    rw [if_neg (by omega), if_pos h]
  · intro q p h1 h2 h3
    simp only [validateSearch]
    rw [if_neg (by omega), if_neg (by omega)]
    rcases h3 with h3 | h3
    · exact ⟨"\"page\" must be greater than or equal to 1", by rw [if_pos h3]⟩
    · exact ⟨"\"page\" must be less than or equal to 100",
        by rw [if_neg (by omega), if_pos h3]⟩
  · intro q p h1 h2 h3 h4
    simp only [validateSearch]
    rw [if_neg (by omega), if_neg (by omega), if_neg (by omega),
      if_neg (by omega)]
  · intro q h1 h2
    simp only [validateSearch]
    rw [if_neg (by omega), if_neg (by omega)]
  · intro env mongo hf ip cache db now qRaw pRaw e hv
    simp [handleSearch, hv]

theorem search_validation_boundaries_witness :
    (∃ e, validateSearch (some "") none = .error e) ∧
    (∃ e, validateSearch
      (some (String.mk (List.replicate 101 'a'))) none = .error e) ∧
    (∃ e, validateSearch (some "batman") (some 0) = .error e) ∧
    (∃ e, validateSearch (some "batman") (some 101) = .error e) ∧
    validateSearch (some "batman") (some 1) = .ok ("batman", 1) ∧
    validateSearch (some "batman") none = .ok ("batman", 1) ∧
    handleSearch sampleEnv true false "ip" [] [] 0 (some "") (some 1)
      = ⟨400, .failure "\"query\" is not allowed to be empty",
          [], [], 0, 0, 0⟩ :=
  ⟨search_validation_boundaries.1 none,
   search_validation_boundaries.2.1 _ none (by decide),
   search_validation_boundaries.2.2.1 "batman" 0 (by decide) (by decide)
     (Or.inl (by decide)),
   search_validation_boundaries.2.2.1 "batman" 101 (by decide) (by decide)
     (Or.inr (by decide)),
   search_validation_boundaries.2.2.2.1 "batman" 1 (by decide) (by decide)
     (by decide) (by decide),
   search_validation_boundaries.2.2.2.2.1 "batman" (by decide) (by decide),
   search_validation_boundaries.2.2.2.2.2 sampleEnv true false "ip" [] []
     0 (some "") (some 1) _ rfl⟩

/-- C6: on a matched page the response carries the provider's reported
count as `totalResults` (a natural number, hence ≥ 0) and
`totalPages = ceil(totalResults / 10)` — `totalPagesOf` is the least `k`
with `totalResults ≤ 10 * k`; in particular 95 → 10, 100 → 10,
101 → 11. -/
theorem search_pagination_math
    (env : ProviderEnv) (mongo hf : Bool) (ip : String)
    (cache : Cache SearchResponse) (db : List HistoryRecord) (now : Nat)
    (qRaw : Option String) (pRaw : Option Int)
    (q : String) (p : Int) (hits : List Movie) (total : Nat)
    (hv : validateSearch qRaw pRaw = .ok (q, p))
    (hmiss : cacheGet cache now (searchKey q p) = none)
    (hok : env.searchP q p = .ok (.matched hits total)) :
    (handleSearch env mongo hf ip cache db now qRaw pRaw).body
      = .success (hits.map (enrich env.detailP)) total p
          (totalPagesOf total) ∧
    (∀ k, totalPagesOf total ≤ k ↔ total ≤ 10 * k) ∧
    totalPagesOf 95 = 10 ∧ totalPagesOf 100 = 10 ∧ totalPagesOf 101 = 11 := by
  refine ⟨by simp [handleSearch, hv, hmiss, hok], ?_, by decide, by decide,
    by decide⟩
  intro k
  unfold totalPagesOf
  omega

theorem search_pagination_math_witness :
    (handleSearch sampleEnv true false "ip" [] [] 0
        (some "batman") (some 1)).body
      = .success ([sampleMovie, sampleMovie2].map (enrich sampleEnv.detailP))
          95 1 (totalPagesOf 95) ∧
    (∀ k, totalPagesOf 95 ≤ k ↔ 95 ≤ 10 * k) ∧
    totalPagesOf 95 = 10 ∧ totalPagesOf 100 = 10 ∧ totalPagesOf 101 = 11 :=
  search_pagination_math sampleEnv true false "ip" [] [] 0
    (some "batman") (some 1) "batman" 1 [sampleMovie, sampleMovie2] 95
    rfl rfl rfl

/-- C7: on a cache miss where the provider reports no match, the handler
answers the failure envelope carrying the provider's error text
(defaulting to "No movies found"), caches that failure verbatim under
`search:{query}:{page}`, and any later call within the TTL window
returns the cached failure without a provider call. -/
theorem search_negative_result_cached
    (env : ProviderEnv) (mongo hf₁ hf₂ : Bool) (ip₁ ip₂ : String)
    (cache : Cache SearchResponse) (db₁ db₂ : List HistoryRecord)
    (t₁ t₂ : Nat) (qRaw : Option String) (pRaw : Option Int)
    (q : String) (p : Int) (err : Option String)
    (hv : validateSearch qRaw pRaw = .ok (q, p))
    (hmiss : cacheGet cache t₁ (searchKey q p) = none)
    (hnm : env.searchP q p = .ok (.noMatch err))
    (ht : t₂ < t₁ + 3600) :
    (handleSearch env mongo hf₁ ip₁ cache db₁ t₁ qRaw pRaw).body
      = .failure (err.getD "No movies found") ∧
    (handleSearch env mongo hf₁ ip₁ cache db₁ t₁ qRaw pRaw).status = 200 ∧
    cacheGet (handleSearch env mongo hf₁ ip₁ cache db₁ t₁ qRaw pRaw).cache t₂
        (searchKey q p)
      = some (.failure (err.getD "No movies found")) ∧
    (handleSearch env mongo hf₂ ip₂
        (handleSearch env mongo hf₁ ip₁ cache db₁ t₁ qRaw pRaw).cache
        db₂ t₂ qRaw pRaw).body
      = .failure (err.getD "No movies found") ∧
    (handleSearch env mongo hf₂ ip₂
        (handleSearch env mongo hf₁ ip₁ cache db₁ t₁ qRaw pRaw).cache
        db₂ t₂ qRaw pRaw).searchCalls = 0 := by
  simp [handleSearch, hv, hmiss, hnm, cacheGet_cacheSet_same, ht]

/-- A provider that reports no match for every search. -/
def noMatchEnv : ProviderEnv :=
  ⟨fun _ _ => .ok (.noMatch (some "Movie not found!")),
   fun _ => .ok sampleDetail⟩

theorem search_negative_result_cached_witness :
    (handleSearch noMatchEnv true false "ip" [] [] 0
        (some "zzzz") (some 1)).body = .failure "Movie not found!" ∧
    (handleSearch noMatchEnv true false "ip" [] [] 0
        (some "zzzz") (some 1)).status = 200 ∧
    cacheGet (handleSearch noMatchEnv true false "ip" [] [] 0
        (some "zzzz") (some 1)).cache 3599 (searchKey "zzzz" 1)
      = some (.failure "Movie not found!") ∧
    (handleSearch noMatchEnv true false "ip"
        (handleSearch noMatchEnv true false "ip" [] [] 0
          (some "zzzz") (some 1)).cache [] 3599
        (some "zzzz") (some 1)).body = .failure "Movie not found!" ∧
    (handleSearch noMatchEnv true false "ip"
        (handleSearch noMatchEnv true false "ip" [] [] 0
          (some "zzzz") (some 1)).cache [] 3599
        (some "zzzz") (some 1)).searchCalls = 0 :=
  search_negative_result_cached noMatchEnv true false false "ip" "ip"
    [] [] [] 0 3599 (some "zzzz") (some 1) "zzzz" 1
    (some "Movie not found!") rfl rfl rfl (by decide)

/-- C8: on a cache miss where the primary provider search call throws,
the handler answers HTTP 500 with the generic "Internal server error"
message — the same body whatever the underlying cause — the cache is
left exactly unchanged (nothing is stored under the key), and the
history table is unchanged. -/
theorem search_provider_failure
    (env : ProviderEnv) (mongo hf : Bool) (ip : String)
    (cache : Cache SearchResponse) (db : List HistoryRecord) (now : Nat)
    (qRaw : Option String) (pRaw : Option Int)
    (q : String) (p : Int) (cause : String)
    (hv : validateSearch qRaw pRaw = .ok (q, p))
    (hmiss : cacheGet cache now (searchKey q p) = none)
    (herr : env.searchP q p = .error cause) :
    handleSearch env mongo hf ip cache db now qRaw pRaw
      = ⟨500, .failure "Internal server error", cache, db, 1, 0, 1⟩ := by
  simp [handleSearch, hv, hmiss, herr]

/-- A provider whose search call always throws. -/
def downEnv : ProviderEnv :=
  ⟨fun _ _ => .error "connect ETIMEDOUT", fun _ => .ok sampleDetail⟩

theorem search_provider_failure_witness :
    handleSearch downEnv true false "ip" [] [] 0 (some "batman") (some 1)
      = ⟨500, .failure "Internal server error", [], [], 1, 0, 1⟩ :=
  search_provider_failure downEnv true false "ip" [] [] 0
    (some "batman") (some 1) "batman" 1 "connect ETIMEDOUT" rfl rfl rfl

/-- C9: the history table changes only on a matched (successful) search
outcome, and then the appended record carries the query, the provider's
reported result count (the `totalResults` of the success body) and the
caller address; whether the recording call fails (`histFails`) never
changes the status, body or cache of the response. -/
theorem search_history_side_effect :
    (∀ env mongo hf ip cache db now qRaw pRaw,
      (handleSearch env mongo hf ip cache db now qRaw pRaw).db ≠ db →
      (handleSearch env mongo hf ip cache db now qRaw pRaw).status = 200 ∧
      ∃ q p movies total,
        validateSearch qRaw pRaw = .ok (q, p) ∧
        (handleSearch env mongo hf ip cache db now qRaw pRaw).body
          = .success movies total p (totalPagesOf total) ∧
        (handleSearch env mongo hf ip cache db now qRaw pRaw).db
          = db ++ [⟨q, total, ip⟩]) ∧
    (∀ env mongo ip cache db now qRaw pRaw,
      (handleSearch env mongo true ip cache db now qRaw pRaw).status
        = (handleSearch env mongo false ip cache db now qRaw pRaw).status ∧
      (handleSearch env mongo true ip cache db now qRaw pRaw).body
        = (handleSearch env mongo false ip cache db now qRaw pRaw).body ∧
      (handleSearch env mongo true ip cache db now qRaw pRaw).cache
        = (handleSearch env mongo false ip cache db now qRaw pRaw).cache) ∧
    (∀ env ip cache db now qRaw pRaw q p hits total,
      validateSearch qRaw pRaw = .ok (q, p) →
      cacheGet cache now (searchKey q p) = none →
      env.searchP q p = .ok (.matched hits total) →
      (handleSearch env true false ip cache db now qRaw pRaw).db
        = db ++ [⟨q, total, ip⟩]) := by
  refine ⟨?_, ?_, ?_⟩
  · intro env mongo hf ip cache db now qRaw pRaw hne
    match hv : validateSearch qRaw pRaw with
    | .error e => simp [handleSearch, hv] at hne
    | .ok (q, p) =>
      match hc : cacheGet cache now (searchKey q p) with
      | some r => simp [handleSearch, hv, hc] at hne
      | none =>
        match hs : env.searchP q p with
        | .error c => simp [handleSearch, hv, hc, hs] at hne
        | .ok (.noMatch err) => simp [handleSearch, hv, hc, hs] at hne
        | .ok (.matched hits total) =>
          refine ⟨by simp [handleSearch, hv, hc, hs], q, p,
            hits.map (enrich env.detailP), total,
            rfl, by simp [handleSearch, hv, hc, hs], ?_⟩
          simp only [handleSearch, hv, hc, hs] at hne ⊢
          by_cases hm : (mongo && !hf) = true
          · simp [hm]
          · simp [hm] at hne
  · intro env mongo ip cache db now qRaw pRaw
    match hv : validateSearch qRaw pRaw with
    | .error e => simp [handleSearch, hv]
    | .ok (q, p) =>
      match hc : cacheGet cache now (searchKey q p) with
      | some r => simp [handleSearch, hv, hc]
      | none =>
        match hs : env.searchP q p with
        | .error c => simp [handleSearch, hv, hc, hs]
        | .ok (.noMatch err) => simp [handleSearch, hv, hc, hs]
        | .ok (.matched hits total) => simp [handleSearch, hv, hc, hs]
  · intro env ip cache db now qRaw pRaw q p hits total hv hc hs
    simp [handleSearch, hv, hc, hs]

theorem search_history_side_effect_witness :
    ((handleSearch sampleEnv true false "ip" [] [] 0
        (some "batman") (some 1)).db ≠ [] →
      (handleSearch sampleEnv true false "ip" [] [] 0
        (some "batman") (some 1)).status = 200 ∧
      ∃ q p movies total,
        validateSearch (some "batman") (some 1) = .ok (q, p) ∧
        (handleSearch sampleEnv true false "ip" [] [] 0
          (some "batman") (some 1)).body
          = .success movies total p (totalPagesOf total) ∧
        (handleSearch sampleEnv true false "ip" [] [] 0
          (some "batman") (some 1)).db = [] ++ [⟨q, total, "ip"⟩]) ∧
    (handleSearch sampleEnv true true "ip" [] [] 0
        (some "batman") (some 1)).body
      = (handleSearch sampleEnv true false "ip" [] [] 0
        (some "batman") (some 1)).body ∧
    (handleSearch sampleEnv true false "ip" [] [] 0
        (some "batman") (some 1)).db = [] ++ [⟨"batman", 95, "ip"⟩] :=
  ⟨search_history_side_effect.1 sampleEnv true false "ip" [] [] 0
      (some "batman") (some 1),
   (search_history_side_effect.2.1 sampleEnv true "ip" [] [] 0
      (some "batman") (some 1)).2.1,
   search_history_side_effect.2.2 sampleEnv "ip" [] [] 0
      (some "batman") (some 1) "batman" 1 [sampleMovie, sampleMovie2] 95
      rfl rfl rfl⟩

/-- C10: every `GET /api/movie/{id}` request is dispatched to the
first-registered `:id` handler, so the later-registered `:imdbID`
handler is unreachable; on a cache miss, a not-found id is answered with
HTTP 200 and the `success=false` envelope (never the second handler's
404), a found id with HTTP 200 and the success envelope, and in both
cases the answered body is cached under `movie:{id}` for the full TTL
window. -/
theorem movie_route_first_registered_wins
    (env : ProviderEnv) (cache : Cache MovieResponse) (now : Nat)
    (id : String) :
    dispatchMovie env cache now id = handleMovieDetail env cache now id ∧
    (∀ d, cacheGet cache now (movieKey id) = none →
      env.detailP id = .ok d →
      (d.Response = false →
        (dispatchMovie env cache now id).status = 200 ∧
        (dispatchMovie env cache now id).body
          = .failure (d.Error.getD "Movie not found")) ∧
      (d.Response = true →
        (dispatchMovie env cache now id).status = 200 ∧
        (dispatchMovie env cache now id).body = .success d) ∧
      (∀ t, t < now + 3600 →
        cacheGet (dispatchMovie env cache now id).cache t (movieKey id)
          = some (dispatchMovie env cache now id).body)) := by
  have hdisp : dispatchMovie env cache now id
      = handleMovieDetail env cache now id := by
    simp [dispatchMovie, movieRouteTable, List.find?]
  refine ⟨hdisp, ?_⟩
  intro d hmiss hok
  rw [hdisp]
  refine ⟨?_, ?_, ?_⟩
  · intro hr; simp [handleMovieDetail, hmiss, hok, hr]
  · intro hr; simp [handleMovieDetail, hmiss, hok, hr]
  · intro t ht
    cases hr : d.Response <;>
      simp [handleMovieDetail, hmiss, hok, hr, cacheGet_cacheSet_same, ht]

/-- A provider whose detail call reports "movie not found". -/
def notFoundEnv : ProviderEnv :=
  ⟨fun _ _ => .ok (.noMatch (some "Movie not found!")),
   fun _ => .ok ⟨false, none, none, none, none, none, none, none,
     some "Incorrect IMDb ID."⟩⟩

theorem movie_route_first_registered_wins_witness :
    dispatchMovie notFoundEnv [] 0 "tt9999999"
      = handleMovieDetail notFoundEnv [] 0 "tt9999999" ∧
    (dispatchMovie notFoundEnv [] 0 "tt9999999").status = 200 ∧
    (dispatchMovie notFoundEnv [] 0 "tt9999999").body
      = .failure "Incorrect IMDb ID." ∧
    cacheGet (dispatchMovie notFoundEnv [] 0 "tt9999999").cache 3599
        (movieKey "tt9999999")
      = some (dispatchMovie notFoundEnv [] 0 "tt9999999").body := by
  have h := movie_route_first_registered_wins notFoundEnv [] 0 "tt9999999"
  have h2 := h.2 ⟨false, none, none, none, none, none, none, none,
    some "Incorrect IMDb ID."⟩ rfl rfl
  exact ⟨h.1, (h2.1 rfl).1, (h2.1 rfl).2, h2.2.2 3599 (by decide)⟩
